import Mathlib

/-!
Verification of the PyNN compatibility layer.

The development embeds, in Lean, the observable behaviour of the three
source files of the repository:

* the NEURON wrapper module (neuron2/_neuron.py): hoc command execution,
  attribute forwarding of the generated wrapper classes, the Vector and
  IClamp wrappers, and the module-level open function;
* the example-runner script (examples/tools/run_all_examples.py):
  argument validation, simulator import filtering and the subprocess
  trace of the main loop;
* the pyNN.nest adapter exercised by test/nesttests.py.  The adapter
  module itself is not part of the corpus, so its behaviour (GID
  assignment, nA-to-pA weight conversion, delay rounding, the exception
  taxonomy, random initialisation) is modelled from the specification,
  with each such definition marked in its doc comment.

Machine reals of the Python sources are modelled as rationals; Python
exceptions are modelled by an explicit error type and `Except`.
-/

/-- Python-level exceptions observable in the sources: builtins
(NameError, AttributeError, AssertionError) and the wrapper taxonomy
(HocError from the neuron module, ConnectionError from pyNN.common). -/
inductive PyErr where
  | nameError (n : String)
  | attributeError (n : String)
  | assertionError
  | hocError (msg : String)
  | connectionError
deriving Repr, DecidableEq

namespace Neuron

/-- The import statements at the top of _neuron.py: only hoc and nrn
are imported there; in particular the logging module never is. -/
def neuronImports : List String := ["hoc", "nrn"]

/-- The global names bound at the top level of the _neuron.py module:
the imports followed by each top-level assignment, def and class. -/
def neuronModuleGlobals : List String :=
  neuronImports ++
    ["h", "dt", "xopen", "quit", "HocError", "new_point_process",
     "new_hoc_class", "hoc_execute", "hoc_comment", "psection", "init",
     "run", "Vector", "IClamp", "open", "File", "ExpSyn",
     "ParallelContext"]

/-- Evaluation of the expression logging.debug(msg) inside _neuron.py:
the name logging is looked up in the module globals; if it is not bound
the call raises NameError. -/
def logging_debug (msg : String) : Except PyErr Unit :=
  if neuronModuleGlobals.contains "logging" then Except.ok ()
  else Except.error (PyErr.nameError "logging")

/-- Python truthiness of an optional string argument (None and the empty
string are falsy). -/
def strTruthy : Option String → Bool
  | none => false
  | some s => !(s == "")

/-- The for-loop body of hoc_execute: log each command, run it through
the embedded hoc interpreter (modelled as a success predicate on
commands), and raise HocError naming the command on failure. -/
def hocExecLoop (interp : String → Bool) : List String → Except PyErr Unit
  | [] => Except.ok ()
  | cmd :: rest =>
    match logging_debug cmd with
    | Except.error e => Except.error e
    | Except.ok () =>
      if interp cmd then hocExecLoop interp rest
      else Except.error (PyErr.hocError
        ("Error produced by hoc command \x22" ++ cmd ++ "\x22"))

/-- hoc_execute(hoc_commands, comment=None) from _neuron.py: if the
comment is truthy it is logged; then each command is logged and
executed, raising HocError on interpreter failure.  (The isinstance
assertion always holds in this typed embedding.) -/
def hoc_execute (interp : String → Bool) (hoc_commands : List String)
    (comment : Option String := none) : Except PyErr Unit :=
  match (if strTruthy comment then logging_debug ((comment).getD "")
         else Except.ok ()) with
  | Except.error e => Except.error e
  | Except.ok () => hocExecLoop interp hoc_commands

/-- hoc_comment(comment) from _neuron.py: a bare call to logging.debug. -/
def hoc_comment (comment : String) : Except PyErr Unit :=
  logging_debug comment

/-- Attribute dictionaries of Python objects, as partial maps from
attribute names to (numeric) values. -/
def AttrDict : Type := String → Option ℚ

/-- Dictionary lookup of an attribute name. -/
def pyLookup (attrs : AttrDict) (nm : String) : Option ℚ := attrs nm

/-- object.__getattribute__: return the attribute or raise
AttributeError. -/
def pyGetattribute (attrs : AttrDict) (nm : String) : Except PyErr ℚ :=
  match pyLookup attrs nm with
  | some v => Except.ok v
  | none => Except.error (PyErr.attributeError nm)

/-- object.__setattr__ on an attribute dictionary: bind the name to the
value, keeping every other binding. -/
def setAttr (attrs : AttrDict) (nm : String) (v : ℚ) : AttrDict :=
  fun k => if k == nm then some v else attrs k

/-- An instance of a class produced by new_point_process or
new_hoc_class: its own instance dictionary plus the wrapped hoc object
(stored in the mangled __obj slot). -/
structure HocWrapper where
  selfAttrs : AttrDict
  obj : AttrDict

/-- Attribute access on a wrapper instance, following the generated
__getattr__: try the instance itself first and, when that raises
AttributeError, forward the lookup to the wrapped hoc object. -/
def HocWrapper.getattr (w : HocWrapper) (nm : String) : Except PyErr ℚ :=
  match pyGetattribute w.selfAttrs nm with
  | Except.ok v => Except.ok v
  | Except.error _ => pyGetattribute w.obj nm

/-- A Vector instance from _neuron.py: its instance dictionary (name,
hoc_obj) and the attributes of the underlying hoc Vector. -/
structure Vector where
  inst : AttrDict
  hoc_obj : AttrDict

/-- Attribute access on a Vector: names in the instance dictionary are
found directly; any other access triggers Vector.__getattr__, which
forwards to the hoc object via getattr(self.hoc_obj, name). -/
def Vector.getattr (v : Vector) (nm : String) : Except PyErr ℚ :=
  match pyLookup v.inst nm with
  | some x => Except.ok x
  | none => pyGetattribute v.hoc_obj nm

/-- An IClamp instance from _neuron.py: the instance dictionary (which
in practice only contains the mangled __obj slot) and the attribute
dictionary of the underlying hoc IClamp, whose delay attribute is
spelled del. -/
structure IClamp where
  inst : AttrDict
  obj : AttrDict

/-- Attribute read on an IClamp, following IClamp.__getattr__: the
Python name delay reads the hoc attribute del, amp and dur are
forwarded under their own names, and any other name that is absent from
the instance dictionary raises AttributeError (the final
self.__getattribute__ call fails again). -/
def IClamp.getattr (ic : IClamp) (nm : String) : Except PyErr ℚ :=
  match pyLookup ic.inst nm with
  | some v => Except.ok v
  | none =>
    if nm == "delay" then pyGetattribute ic.obj "del"
    else if nm == "amp" || nm == "dur" then pyGetattribute ic.obj nm
    else Except.error (PyErr.attributeError nm)

/-- Attribute write on an IClamp, following IClamp.__setattr__: delay is
written to the hoc attribute del, amp and dur to the hoc object under
their own names, and everything else lands in the instance dictionary
via object.__setattr__. -/
def IClamp.setattr (ic : IClamp) (nm : String) (v : ℚ) : IClamp :=
  if nm == "delay" then { ic with obj := setAttr ic.obj "del" v }
  else if nm == "amp" || nm == "dur" then
    { ic with obj := setAttr ic.obj nm v }
  else { ic with inst := setAttr ic.inst nm v }

/-- The File class of _neuron.py: its body is only a docstring, so it
declares no fields and no methods of its own. -/
structure File where

/-- The module-level open(filename, mode) function of _neuron.py: its
body is only a docstring followed by pass, so every call returns None
(modelled as the none value) whatever the arguments. -/
def «open» (filename : String) (mode : String := "r") : Option File :=
  none

end Neuron

namespace Examples

/-- Python str.lower for the ASCII simulator names. -/
def lower (s : String) : String := String.mk (s.data.map Char.toLower)

/-- os.path.basename: the part of the path after its last slash. -/
def basename (path : String) : String :=
  String.mk (path.data.foldl (fun acc c => if c == '/' then [] else acc ++ [c]) [])

/-- The default_simulators list of run_all_examples.py. -/
def default_simulators : List String := ["MOCK", "NEST", "NEURON", "Brian"]

/-- Outcome of the argument-validation prologue of run_all_examples.py:
either an early sys.exit(1) after printing the allowed names, or the
list of simulator names the rest of the script proceeds with. -/
inductive ArgResult where
  | exit1 (printed : String)
  | proceed (simulator_names : List String)
deriving Repr, DecidableEq

/-- The message printed before the early exit. -/
def allowedMsg : String :=
  "Simulator must be one of: " ++ String.intercalate ", " default_simulators

/-- Lines 5-13 of run_all_examples.py: with no command-line arguments
the four defaults are used; otherwise each name is checked against the
defaults and the script prints the allowed list and exits with status 1
at the first invalid name. -/
def checkArgs (args : List String) : ArgResult :=
  if args.isEmpty then ArgResult.proceed default_simulators
  else
    match args.find? (fun n => !default_simulators.contains n) with
    | some _ => ArgResult.exit1 allowedMsg
    | none => ArgResult.proceed args

/-- The exclude dictionary: scripts not run for a given simulator.
The dictionary is only ever indexed with validated simulator names. -/
def excludeOf (simulator : String) : List String :=
  if simulator == "Brian" then
    ["nineml_neuron.py", "HH_cond_exp2.py", "HH_cond_exp.py",
     "simpleRandomNetwork_csa.py", "simpleRandomNetwork.py",
     "simple_STDP2.py", "simple_STDP.py"]
  else ["nineml_neuron.py"]

/-- The extra_args dictionary: the four VAbenchmarks scripts receive the
extra argument CUBA. -/
def extra_args (script_name : String) : Option String :=
  if script_name == "VAbenchmarks.py" || script_name == "VAbenchmarks2.py"
      || script_name == "VAbenchmarks2-csa.py"
      || script_name == "VAbenchmarks3.py"
  then some "CUBA" else none

/-- The four script names carrying the extra CUBA argument. -/
def vaScripts : List String :=
  ["VAbenchmarks.py", "VAbenchmarks2.py", "VAbenchmarks2-csa.py",
   "VAbenchmarks3.py"]

/-- Observable actions of run_all_examples.py: printed lines, import
attempts, the Results directory creation, shell subprocesses with their
stdout log file, the printed per-script status, plot subprocesses and
the early exit. -/
inductive Event where
  | printLine (s : String)
  | importAttempt (moduleName : String)
  | mkdirResults
  | runCmd (cmd logfile : String)
  | printStatus (s : String)
  | plotRun (cmd : String)
  | exitWith (code : Nat)
deriving Repr, DecidableEq

/-- The environment the script runs against: which pyNN backend
modules are importable, the glob result for ../*.py, the exit status
of each shell command, and whether the Results directory exists. -/
structure ExamplesEnv where
  importOk : String → Bool
  scripts : List String
  exitStatus : String → Int
  resultsExists : Bool

/-- The shell command built for one script and one simulator (lines
47-49): python, the script path, the lowercased simulator name, and the
extra argument when the script has one. -/
def commandFor (simulator script : String) : String :=
  let cmd0 := "python " ++ script ++ " " ++ lower simulator
  match extra_args (basename script) with
  | some a => cmd0 ++ " " ++ a
  | none => cmd0

/-- The per-script body of the inner loop (lines 45-55): excluded
scripts produce nothing; otherwise the command is printed, run with its
stdout redirected to Results/<basename>_<simulator>.log, and the status
line is printed according to the exit status. -/
def scriptEvents (env : ExamplesEnv) (simulator script : String) :
    List Event :=
  if basename script ∈ excludeOf simulator then []
  else
    let cmd := commandFor simulator script
    let logfile := "Results/" ++ basename script ++ "_" ++ simulator
      ++ ".log"
    [Event.printLine cmd, Event.runCmd cmd logfile,
     Event.printStatus
       (if env.exitStatus cmd == 0 then " - ok" else " - fail")]

/-- The per-simulator body of the outer loop (lines 41-57): when the
lowercased name is among the successfully imported simulators, a header
is printed and every globbed script is processed; otherwise only the
not-available banner is printed. -/
def simEvents (env : ExamplesEnv) (simulators : List String)
    (simulator : String) : List Event :=
  if simulators.contains (lower simulator) then
    Event.printLine
        ("================== Running examples with " ++ simulator
          ++ " =================")
      :: env.scripts.flatMap (scriptEvents env simulator)
  else
    [Event.printLine
      ("================== " ++ simulator
        ++ " not available =================")]

/-- The plotting epilogue (lines 59-64): for each globbed script the
plot command is printed and run in a subprocess. -/
def plotEvents (env : ExamplesEnv) : List Event :=
  Event.printLine "================== Plotting results ================="
    :: env.scripts.flatMap (fun script =>
      let cmd := "python plot_results.py "
        ++ (basename script).dropRight 3
      [Event.printLine cmd, Event.plotRun cmd])

/-- The whole of run_all_examples.py as an event trace: argument
validation, then for each requested name an import attempt of
pyNN.<name-lowercased>, the conditional creation of Results, the main
loop over simulators and scripts, and the plotting epilogue. -/
def run_all_examples (env : ExamplesEnv) (args : List String) :
    List Event :=
  match checkArgs args with
  | ArgResult.exit1 msg => [Event.printLine msg, Event.exitWith 1]
  | ArgResult.proceed simulator_names =>
    let simulators := (simulator_names.map lower).filter env.importOk
    (simulator_names.map (fun s => Event.importAttempt ("pyNN." ++ lower s)))
      ++ (if env.resultsExists then [] else [Event.mkdirResults])
      ++ simulator_names.flatMap (simEvents env simulators)
      ++ plotEvents env

end Examples

namespace PyNNNest

/-- Modelled from the spec: the pyNN.nest adapter module (pyNN/nest.py)
is absent from the corpus, only its unit tests are present.  A NEST
connection as the adapter stores it in the backend: source and target
GIDs, the weight already converted to the NEST unit pA, and the delay
already rounded to the timestep grid. -/
structure Conn where
  src : Nat
  tgt : Nat
  weight_pA : ℚ
  delay : ℚ
deriving Repr, DecidableEq

/-- Modelled from the spec: the backend state behind pyNN.nest missing
from the corpus.  GIDs are assigned sequentially from nextGid;
connections accumulate in creation order. -/
structure NestState where
  nextGid : Nat
  timestep : ℚ
  min_delay : ℚ
  max_delay : ℚ
  conns : List Conn
deriving Repr, DecidableEq

/-- Modelled from the spec: nest.setup, missing from the corpus.  It
resets the backend so that the first created cell receives GID 1 and
records the timestep and the delay bounds. -/
def setup (timestep : ℚ := 1/10) (min_delay : ℚ := 1/10)
    (max_delay : ℚ := 10) : NestState :=
  { nextGid := 1, timestep := timestep, min_delay := min_delay,
    max_delay := max_delay, conns := [] }

/-- Modelled from the spec: nest.create, missing from the corpus.  The
cell count must be positive (an AssertionError otherwise); the new
cells receive the next n sequential GIDs. -/
def create (n : Int) (s : NestState) :
    Except PyErr (List Nat × NestState) :=
  if n ≤ 0 then Except.error PyErr.assertionError
  else Except.ok ((List.range n.toNat).map (fun i => i + s.nextGid),
    { s with nextGid := s.nextGid + n.toNat })

/-- Modelled from the spec: the adapter stores delays only to the
precision of the simulation timestep, rounding to the nearest grid
point. -/
def roundToStep (d step : ℚ) : ℚ := (⌊d / step + 1/2⌋ : ℚ) * step

/-- Modelled from the spec: nest.connect, missing from the corpus.  A
ConnectionError is raised when either cell does not exist or when the
requested delay falls outside [min_delay, max_delay]; otherwise the
connection is appended, its weight converted from the pyNN unit nA to
the NEST unit pA (a factor of 1000) and its delay rounded to the
timestep, and the port number of the new connection on its source is
returned. -/
def connect (src tgt : Nat) (weight : ℚ := 0) (delay : Option ℚ := none)
    (s : NestState) : Except PyErr (Nat × NestState) :=
  if !(1 ≤ src && src < s.nextGid) then Except.error PyErr.connectionError
  else if !(1 ≤ tgt && tgt < s.nextGid) then
    Except.error PyErr.connectionError
  else
    let d := delay.getD s.min_delay
    if d < s.min_delay ∨ s.max_delay < d then
      Except.error PyErr.connectionError
    else
      Except.ok ((s.conns.filter (fun c => c.src == src)).length,
        { s with conns := s.conns ++
            [{ src := src, tgt := tgt, weight_pA := weight * 1000,
               delay := roundToStep d s.timestep }] })

/-- Modelled from the spec: pynest.getWeight on a source address and a
port, missing from the corpus: the stored pA weight of the port-th
connection of that source. -/
def getWeight (src port : Nat) (s : NestState) : Option ℚ :=
  ((s.conns.filter (fun c => c.src == src))[port]?).map
    (fun c => c.weight_pA)

/-- Modelled from the spec: pynest.getDelay, missing from the corpus:
the stored delay of the port-th connection of the source. -/
def getDelay (src port : Nat) (s : NestState) : Option ℚ :=
  ((s.conns.filter (fun c => c.src == src))[port]?).map
    (fun c => c.delay)

/-- Row-major reshaping of a flat GID list into a rows-by-cols cell
array, as numpy.reshape arranges the cells of a Population. -/
def reshape (rows cols : Nat) (gids : List Nat) : List (List Nat) :=
  (List.range rows).map (fun r =>
    (List.range cols).map (fun c => gids.getD (r * cols + c) 0))

/-- Modelled from the spec: the cell array of a freshly created
two-dimensional Population, missing from the corpus: the product of the
dimensions many cells are created and arranged row-major. -/
def populationCellArray (rows cols : Nat) (s : NestState) :
    Except PyErr (List (List Nat) × NestState) :=
  (create (rows * cols) s).map
    (fun p => (reshape rows cols p.fst, p.snd))

/-- Modelled from the spec: a Projection as the set of connections it
created in the backend. -/
structure Projection where
  conns : List Conn
deriving Repr, DecidableEq

/-- Modelled from the spec: Projection.setWeights, missing from the
corpus: every connection of the projection receives the given pyNN
weight, converted to pA by the factor 1000. -/
def Projection.setWeights (w : ℚ) (prj : Projection) : Projection :=
  { conns := prj.conns.map (fun c => { c with weight_pA := w * 1000 }) }

/-- Modelled from the spec: retrieving the weight of the i-th
connection of a projection through pynest.getWeight. -/
def projGetWeight (prj : Projection) (i : Nat) : Option ℚ :=
  (prj.conns[i]?).map (fun c => c.weight_pA)

/-- Modelled from the spec: the NumpyRNG stream, missing from the
corpus, as a deterministic function of the seed: a 32-bit linear
congruential step. -/
def lcg (x : Nat) : Nat := (1664525 * x + 1013904223) % 4294967296

/-- The i-th raw draw of the seeded stream. -/
def lcgIter (seed : Nat) : Nat → Nat
  | 0 => lcg (seed % 4294967296)
  | n + 1 => lcg (lcgIter seed n)

/-- Modelled from the spec: a RandomDistribution over a seeded NumpyRNG,
missing from the corpus: uniform on [a, b], consuming the seeded stream
from position pos. -/
structure RandomDistribution where
  seed : Nat
  pos : Nat
  a : ℚ
  b : ℚ
deriving Repr, DecidableEq

/-- One draw of a uniform RandomDistribution and the advanced
distribution. -/
def RandomDistribution.nextOne (rd : RandomDistribution) :
    ℚ × RandomDistribution :=
  ((rd).a + ((rd).b - (rd).a) * ((lcgIter rd.seed rd.pos : ℚ) / 4294967296),
    { rd with pos := rd.pos + 1 })

/-- RandomDistribution.next(n): the next n draws, in order. -/
def RandomDistribution.next (rd : RandomDistribution) :
    Nat → List ℚ × RandomDistribution
  | 0 => ([], rd)
  | n + 1 =>
    let p := rd.nextOne
    let q := p.snd.next n
    (p.fst :: q.fst, q.snd)

/-- Modelled from the spec: Population.rset, missing from the corpus:
the named parameter of each cell, in cell order, is set to a fresh draw
of the distribution. -/
def rset (param : String) (cells : List Nat) (rd : RandomDistribution) :
    List (Nat × String × ℚ) × RandomDistribution :=
  match cells with
  | [] => ([], rd)
  | c :: rest =>
    let p := rd.nextOne
    let q := rset param rest p.snd
    ((c, param, p.fst) :: q.fst, q.snd)

end PyNNNest

/-- The name logging is absent from the module globals of _neuron.py, so
every logging.debug call there raises NameError. -/
theorem logging_debug_fails (m : String) :
    Neuron.logging_debug m = Except.error (PyErr.nameError "logging") := by
  have h : "logging" ∉ Neuron.neuronModuleGlobals := by decide
  simp [Neuron.logging_debug, h]

/-- C4: _neuron.py never imports logging, so every hoc_execute call with
a non-empty command list and every hoc_comment call raises NameError;
hoc_execute returns normally only for the empty command list, and its
HocError branch is unreachable. -/
theorem hoc_execute_always_nameError (interp : String → Bool)
    (cmds : List String) (comment : Option String) :
    (cmds ≠ [] → Neuron.hoc_execute interp cmds comment
        = Except.error (PyErr.nameError "logging")) ∧
    (∀ c, Neuron.hoc_comment c = Except.error (PyErr.nameError "logging")) ∧
    (Neuron.hoc_execute interp cmds comment = Except.ok () → cmds = []) ∧
    (∀ msg, Neuron.hoc_execute interp cmds comment
        ≠ Except.error (PyErr.hocError msg)) := by
  have hloop : ∀ c rest, Neuron.hocExecLoop interp (c :: rest)
      = Except.error (PyErr.nameError "logging") := by
    intro c rest
    simp [Neuron.hocExecLoop, logging_debug_fails]
  have hmain : ∀ cm : Option String, cmds ≠ [] →
      Neuron.hoc_execute interp cmds cm
        = Except.error (PyErr.nameError "logging") := by
    intro cm hne
    cases cmds with
    | nil => exact absurd rfl hne
    | cons c rest =>
      cases hcm : Neuron.strTruthy cm with
      | false => simp [Neuron.hoc_execute, hcm, hloop]
      | true => simp [Neuron.hoc_execute, hcm, logging_debug_fails]
  refine ⟨hmain comment, fun c => logging_debug_fails c, ?_, ?_⟩
  · intro hok
    by_contra hne
    rw [hmain comment hne] at hok
    exact Except.noConfusion hok
  · intro msg heq
    cases cmds with
    | nil =>
      cases hcm : Neuron.strTruthy comment with
      | false =>
        rw [show Neuron.hoc_execute interp [] comment = Except.ok () from by
          simp [Neuron.hoc_execute, hcm, Neuron.hocExecLoop]] at heq
        exact Except.noConfusion heq
      | true =>
        rw [show Neuron.hoc_execute interp [] comment
            = Except.error (PyErr.nameError "logging") from by
          simp [Neuron.hoc_execute, hcm, logging_debug_fails]] at heq
        simp at heq
    | cons c rest =>
      rw [hmain comment (by simp)] at heq
      simp at heq

/-- Concrete run of the C4 theorem on a singleton command list. -/
theorem hoc_execute_always_nameError_witness :
    Neuron.hoc_execute (fun _ => true) ["foo"] none
      = Except.error (PyErr.nameError "logging") :=
  (hoc_execute_always_nameError (fun _ => true) ["foo"] none).1 (by decide)

/-- C9: the module-level open of _neuron.py returns None on every input,
despite its docstring, and the File class carries no data or behaviour
of its own (all its values are equal). -/
theorem open_returns_none (filename mode : String) :
    Neuron.«open» filename mode = none ∧ ∀ a b : Neuron.File, a = b :=
  ⟨rfl, fun _ _ => rfl⟩

/-- C5: classes produced by new_point_process and new_hoc_class, and the
Vector wrapper, forward an attribute lookup that fails on the wrapper
itself to the underlying hoc object; on IClamp the Python attribute
delay reads and writes the hoc attribute del, while amp and dur are
forwarded under their own names. -/
theorem wrapper_attribute_forwarding :
    (∀ (w : Neuron.HocWrapper) (nm : String),
        Neuron.pyLookup w.selfAttrs nm = none →
        w.getattr nm = Neuron.pyGetattribute w.obj nm) ∧
    (∀ (v : Neuron.Vector) (nm : String),
        Neuron.pyLookup v.inst nm = none →
        v.getattr nm = Neuron.pyGetattribute v.hoc_obj nm) ∧
    (∀ ic : Neuron.IClamp, Neuron.pyLookup ic.inst "delay" = none →
        ic.getattr "delay" = Neuron.pyGetattribute ic.obj "del") ∧
    (∀ (ic : Neuron.IClamp) (nm : String), nm = "amp" ∨ nm = "dur" →
        Neuron.pyLookup ic.inst nm = none →
        ic.getattr nm = Neuron.pyGetattribute ic.obj nm) ∧
    (∀ (ic : Neuron.IClamp) (x : ℚ),
        (ic.setattr "delay" x).inst = ic.inst ∧
        Neuron.pyLookup (ic.setattr "delay" x).obj "del" = some x) ∧
    (∀ (ic : Neuron.IClamp) (nm : String) (x : ℚ), nm = "amp" ∨ nm = "dur" →
        (ic.setattr nm x).inst = ic.inst ∧
        Neuron.pyLookup (ic.setattr nm x).obj nm = some x) := by
  refine ⟨?_, ?_, ?_, ?_, ?_, ?_⟩
  · intro w nm h
    simp [Neuron.HocWrapper.getattr, Neuron.pyGetattribute, h]
  · intro v nm h
    simp [Neuron.Vector.getattr, h]
  · intro ic h
    simp [Neuron.IClamp.getattr, h]
  · intro ic nm h1 h2
    rcases h1 with rfl | rfl <;> simp [Neuron.IClamp.getattr, h2]
  · intro ic x
    refine ⟨?_, ?_⟩ <;>
      simp [Neuron.IClamp.setattr, Neuron.setAttr, Neuron.pyLookup]
  · intro ic nm x h
    rcases h with rfl | rfl <;>
      exact ⟨by simp [Neuron.IClamp.setattr],
        by simp [Neuron.IClamp.setattr, Neuron.setAttr, Neuron.pyLookup]⟩

/-- Concrete run of the C5 theorem on small attribute dictionaries. -/
theorem wrapper_attribute_forwarding_witness :
    (Neuron.HocWrapper.getattr
        { selfAttrs := fun _ => none,
          obj := fun k => if k == "tau" then some 2 else none } "tau"
      = Neuron.pyGetattribute
          (fun k => if k == "tau" then some 2 else none) "tau") ∧
    (Neuron.Vector.getattr
        { inst := fun _ => none,
          hoc_obj := fun k => if k == "size" then some 10 else none } "size"
      = Neuron.pyGetattribute
          (fun k => if k == "size" then some 10 else none) "size") ∧
    (Neuron.IClamp.getattr
        { inst := fun _ => none,
          obj := fun k => if k == "del" then some 5 else none } "delay"
      = Neuron.pyGetattribute
          (fun k => if k == "del" then some 5 else none) "del") ∧
    (Neuron.IClamp.getattr
        { inst := fun _ => none,
          obj := fun k => if k == "amp" then some 3 else none } "amp"
      = Neuron.pyGetattribute
          (fun k => if k == "amp" then some 3 else none) "amp") ∧
    (Neuron.pyLookup
        (Neuron.IClamp.setattr
          { inst := fun _ => none, obj := fun _ => none } "dur" 7).obj "dur"
      = some 7) :=
  ⟨wrapper_attribute_forwarding.1
      { selfAttrs := fun _ => none,
        obj := fun k => if k == "tau" then some 2 else none } "tau" rfl,
    wrapper_attribute_forwarding.2.1
      { inst := fun _ => none,
        hoc_obj := fun k => if k == "size" then some 10 else none } "size" rfl,
    wrapper_attribute_forwarding.2.2.1
      { inst := fun _ => none,
        obj := fun k => if k == "del" then some 5 else none } rfl,
    wrapper_attribute_forwarding.2.2.2.1
      { inst := fun _ => none,
        obj := fun k => if k == "amp" then some 3 else none } "amp"
      (Or.inl rfl) rfl,
    (wrapper_attribute_forwarding.2.2.2.2.2
      { inst := fun _ => none, obj := fun _ => none } "dur" 7
      (Or.inr rfl)).2⟩

/-- C10: run_all_examples.py prints the allowed simulator names and
exits with status 1, without attempting any import and without running
any example, as soon as some command-line argument is not one of the
four known names; invoked with no arguments it behaves exactly as if
the four default names had been given. -/
theorem argument_validation (env : Examples.ExamplesEnv)
    (args : List String) (a : String) :
    (a ∈ args → a ∉ Examples.default_simulators →
      Examples.run_all_examples env args
        = [Examples.Event.printLine Examples.allowedMsg,
           Examples.Event.exitWith 1]) ∧
    Examples.run_all_examples env []
      = Examples.run_all_examples env Examples.default_simulators := by
  constructor
  · intro hmem hna
    have hne : args.isEmpty = false := by
      cases args with
      | nil => cases hmem
      | cons x xs => rfl
    have hpa : (!Examples.default_simulators.contains a) = true := by
      cases hc : Examples.default_simulators.contains a with
      | false => rfl
      | true => exact absurd (List.elem_iff.mp hc) hna
    have hsome : (args.find?
        (fun n => !Examples.default_simulators.contains n)).isSome :=
      List.find?_isSome.mpr ⟨a, hmem, hpa⟩
    have hca : Examples.checkArgs args
        = Examples.ArgResult.exit1 Examples.allowedMsg := by
      unfold Examples.checkArgs
      rw [if_neg (by simp [hne])]
      obtain ⟨x, hx⟩ := Option.isSome_iff_exists.mp hsome
      rw [hx]
    unfold Examples.run_all_examples
    rw [hca]
  · have h1 : Examples.checkArgs []
        = Examples.ArgResult.proceed Examples.default_simulators := by decide
    have h2 : Examples.checkArgs Examples.default_simulators
        = Examples.ArgResult.proceed Examples.default_simulators := by decide
    unfold Examples.run_all_examples
    rw [h1, h2]

/-- Concrete run of the C10 theorem on an unknown simulator name. -/
theorem argument_validation_witness :
    Examples.run_all_examples
        { importOk := fun _ => false, scripts := [],
          exitStatus := fun _ => 0, resultsExists := true } ["PCSIM"]
      = [Examples.Event.printLine Examples.allowedMsg,
         Examples.Event.exitWith 1] :=
  (argument_validation
    { importOk := fun _ => false, scripts := [],
      exitStatus := fun _ => 0, resultsExists := true } ["PCSIM"] "PCSIM").1
    (by decide) (by decide)

/-- C8: for every requested simulator whose pyNN module imports and
every globbed script outside its exclusion list, the runner produces
exactly the print of the shell command, the subprocess with its stdout
log file Results/(basename)_(simulator).log, and the status line; the
command is python (script) (lowercased simulator), with CUBA appended
exactly for the four VAbenchmarks scripts; the subprocess appears in
the full program trace, and the ok status is printed precisely when the
exit status is 0, the fail status otherwise. -/
theorem runner_spawns_and_reports (env : Examples.ExamplesEnv)
    (names : List String) (simulator script : String)
    (hvalid : ∀ n ∈ names, n ∈ Examples.default_simulators)
    (hsim : simulator ∈ names)
    (himp : env.importOk (Examples.lower simulator) = true)
    (hscript : script ∈ env.scripts)
    (hexc : Examples.basename script ∉ Examples.excludeOf simulator) :
    Examples.scriptEvents env simulator script
      = [Examples.Event.printLine (Examples.commandFor simulator script),
         Examples.Event.runCmd (Examples.commandFor simulator script)
           ("Results/" ++ Examples.basename script ++ "_" ++ simulator
             ++ ".log"),
         Examples.Event.printStatus
           (if env.exitStatus (Examples.commandFor simulator script) == 0
            then " - ok" else " - fail")] ∧
    (Examples.basename script ∉ Examples.vaScripts →
      Examples.commandFor simulator script
        = "python " ++ script ++ " " ++ Examples.lower simulator) ∧
    (Examples.basename script ∈ Examples.vaScripts →
      Examples.commandFor simulator script
        = ("python " ++ script ++ " " ++ Examples.lower simulator)
            ++ " CUBA") ∧
    Examples.Event.runCmd (Examples.commandFor simulator script)
        ("Results/" ++ Examples.basename script ++ "_" ++ simulator
          ++ ".log")
      ∈ Examples.run_all_examples env names ∧
    (Examples.Event.printStatus " - ok"
        ∈ Examples.scriptEvents env simulator script
      ↔ env.exitStatus (Examples.commandFor simulator script) = 0) ∧
    (Examples.Event.printStatus " - fail"
        ∈ Examples.scriptEvents env simulator script
      ↔ env.exitStatus (Examples.commandFor simulator script) ≠ 0) := by
  have hse : Examples.scriptEvents env simulator script
      = [Examples.Event.printLine (Examples.commandFor simulator script),
         Examples.Event.runCmd (Examples.commandFor simulator script)
           ("Results/" ++ Examples.basename script ++ "_" ++ simulator
             ++ ".log"),
         Examples.Event.printStatus
           (if env.exitStatus (Examples.commandFor simulator script) == 0
            then " - ok" else " - fail")] := by
    unfold Examples.scriptEvents
    rw [if_neg hexc]
  refine ⟨hse, ?_, ?_, ?_, ?_, ?_⟩
  · intro h
    simp only [Examples.vaScripts, List.mem_cons, List.not_mem_nil,
      or_false, not_or] at h
    obtain ⟨h1, h2, h3, h4⟩ := h
    have he : Examples.extra_args (Examples.basename script) = none := by
      simp [Examples.extra_args, h1, h2, h3, h4]
    unfold Examples.commandFor
    rw [he]
  · intro h
    simp only [Examples.vaScripts, List.mem_cons, List.not_mem_nil,
      or_false] at h
    have he : Examples.extra_args (Examples.basename script)
        = some "CUBA" := by
      rcases h with h | h | h | h <;> simp [Examples.extra_args, h]
    unfold Examples.commandFor
    rw [he]
    simp only [String.append_assoc]
    rfl
  · have hne : names.isEmpty = false := by
      cases names with
      | nil => cases hsim
      | cons x xs => rfl
    have hfind : names.find?
        (fun n => !Examples.default_simulators.contains n) = none := by
      apply List.find?_eq_none.mpr
      intro x hx
      simp only [Bool.not_eq_true']
      simp
      exact hvalid x hx
    have hproceed : Examples.checkArgs names
        = Examples.ArgResult.proceed names := by
      unfold Examples.checkArgs
      rw [if_neg (by simp [hne]), hfind]
    have hrun : Examples.run_all_examples env names
        = (names.map fun s =>
              Examples.Event.importAttempt ("pyNN." ++ Examples.lower s))
          ++ (if env.resultsExists then [] else [Examples.Event.mkdirResults])
          ++ names.flatMap (Examples.simEvents env
              ((names.map Examples.lower).filter env.importOk))
          ++ Examples.plotEvents env := by
      unfold Examples.run_all_examples
      rw [hproceed]
    rw [hrun]
    refine List.mem_append.mpr (Or.inl (List.mem_append.mpr (Or.inr ?_)))
    refine List.mem_flatMap.mpr ⟨simulator, hsim, ?_⟩
    have hcont : ((names.map Examples.lower).filter env.importOk).contains
        (Examples.lower simulator) = true :=
      List.elem_iff.mpr
        (List.mem_filter.mpr ⟨List.mem_map.mpr ⟨simulator, hsim, rfl⟩, himp⟩)
    unfold Examples.simEvents
    rw [if_pos hcont]
    refine List.mem_cons.mpr (Or.inr ?_)
    refine List.mem_flatMap.mpr ⟨script, hscript, ?_⟩
    rw [hse]
    simp
  · rw [hse]
    by_cases h : env.exitStatus (Examples.commandFor simulator script) = 0
    · have hb : (env.exitStatus (Examples.commandFor simulator script) == 0)
          = true := beq_iff_eq.mpr h
      simp [hb, h]
    · have hb : (env.exitStatus (Examples.commandFor simulator script) == 0)
          = false := by
        rw [beq_eq_false_iff_ne]
        exact h
      have hstr : (" - ok" : String) ≠ " - fail" := by decide
      simp [hb, h, hstr]
  · rw [hse]
    by_cases h : env.exitStatus (Examples.commandFor simulator script) = 0
    · have hb : (env.exitStatus (Examples.commandFor simulator script) == 0)
          = true := beq_iff_eq.mpr h
      have hstr : (" - fail" : String) ≠ " - ok" := by decide
      simp [hb, h, hstr]
    · have hb : (env.exitStatus (Examples.commandFor simulator script) == 0)
          = false := by
        rw [beq_eq_false_iff_ne]
        exact h
      simp [hb, h]

/-- Concrete run of the C8 theorem: NEST with a VAbenchmarks script. -/
theorem runner_spawns_and_reports_witness :
    Examples.Event.runCmd (Examples.commandFor "NEST" "../VAbenchmarks.py")
        ("Results/" ++ Examples.basename "../VAbenchmarks.py" ++ "_"
          ++ "NEST" ++ ".log")
      ∈ Examples.run_all_examples
          { importOk := fun s => s == "nest",
            scripts := ["../VAbenchmarks.py"],
            exitStatus := fun _ => 0, resultsExists := true } ["NEST"] :=
  (runner_spawns_and_reports
    { importOk := fun s => s == "nest", scripts := ["../VAbenchmarks.py"],
      exitStatus := fun _ => 0, resultsExists := true }
    ["NEST"] "NEST" "../VAbenchmarks.py"
    (by decide) (by decide) (by decide) (by decide) (by decide)).2.2.2.1

/-- C3: GIDs are assigned sequentially from 1: after setup the first
created cell has GID 1, creating k cells returns the list 1..k, a
non-positive cell count raises AssertionError, and a fresh (3,3)
Population holds the row-major cell array [[1,2,3],[4,5,6],[7,8,9]]. -/
theorem create_gid_assignment (ts md Md : ℚ) :
    (∀ n : Int, n ≤ 0 → PyNNNest.create n (PyNNNest.setup ts md Md)
        = Except.error PyErr.assertionError) ∧
    ((PyNNNest.create 1 (PyNNNest.setup ts md Md)).map Prod.fst
        = Except.ok [1]) ∧
    (∀ k : Nat, 0 < k →
      (PyNNNest.create (k : Int) (PyNNNest.setup ts md Md)).map Prod.fst
        = Except.ok (List.range' 1 k)) ∧
    ((PyNNNest.populationCellArray 3 3
        (PyNNNest.setup ts md Md)).map Prod.fst
      = Except.ok [[1, 2, 3], [4, 5, 6], [7, 8, 9]]) := by
  refine ⟨?_, ?_, ?_, ?_⟩
  · intro n hn
    simp [PyNNNest.create, hn]
  · simp [PyNNNest.create, PyNNNest.setup, Except.map]
    decide
  · intro k hk
    have hk' : ¬((k : Int) ≤ 0) := by
      simp only [not_le]
      exact_mod_cast hk
    have hfun : (fun i : ℕ => i + 1) = (fun i : ℕ => 1 + i) :=
      funext fun i => Nat.add_comm i 1
    simp only [PyNNNest.create, PyNNNest.setup, hk', if_false, Except.map,
      Int.toNat_natCast]
    rw [List.range_eq_range', hfun, List.map_add_range']
  · have h9 : ¬(((3 * 3 : ℕ) : Int) ≤ 0) := by norm_num
    simp [PyNNNest.populationCellArray, PyNNNest.create, PyNNNest.setup,
      h9, Except.map]
    decide

/-- Concrete run of the C3 theorem: a negative cell count is rejected
and cells 1..4 are returned for a count of 4. -/
theorem create_gid_assignment_witness :
    PyNNNest.create (-1) (PyNNNest.setup (1/10) (1/10) 10)
      = Except.error PyErr.assertionError ∧
    (PyNNNest.create ((4 : ℕ) : Int)
        (PyNNNest.setup (1/10) (1/10) 10)).map Prod.fst
      = Except.ok (List.range' 1 4) :=
  ⟨(create_gid_assignment (1/10) (1/10) 10).1 (-1) (by decide),
    (create_gid_assignment (1/10) (1/10) 10).2.2.1 4 (by decide)⟩

/-- C1: a weight w given to connect in the pyNN unit nA is stored in
and retrieved from the backend as w*1000 (the NEST unit pA), and after
Projection.setWeights(w) every connection of the projection retrieves
the weight w*1000. -/
theorem weight_unit_conversion (s : PyNNNest.NestState)
    (pre post : Nat) (w : ℚ)
    (hpre1 : 1 ≤ pre) (hpre2 : pre < s.nextGid)
    (hpost1 : 1 ≤ post) (hpost2 : post < s.nextGid)
    (hdel : s.min_delay ≤ s.max_delay) :
    (PyNNNest.connect pre post w none s
      = Except.ok ((s.conns.filter (fun c => c.src == pre)).length,
          { s with conns := s.conns ++
              [{ src := pre, tgt := post, weight_pA := w * 1000,
                 delay := PyNNNest.roundToStep s.min_delay s.timestep }] })) ∧
    (PyNNNest.getWeight pre
        ((s.conns.filter (fun c => c.src == pre)).length)
        { s with conns := s.conns ++
            [{ src := pre, tgt := post, weight_pA := w * 1000,
               delay := PyNNNest.roundToStep s.min_delay s.timestep }] }
      = some (w * 1000)) ∧
    (∀ (prj : PyNNNest.Projection) (i : Nat), i < prj.conns.length →
      PyNNNest.projGetWeight (PyNNNest.Projection.setWeights w prj) i
        = some (w * 1000)) := by
  have h5 : ¬ s.max_delay < s.min_delay := not_lt.mpr hdel
  refine ⟨?_, ?_, ?_⟩
  · simp [PyNNNest.connect, hpre1, hpre2, hpost1, hpost2, h5]
  · simp [PyNNNest.getWeight, List.filter_append,
      List.getElem?_concat_length]
  · intro prj i hi
    unfold PyNNNest.projGetWeight PyNNNest.Projection.setWeights
    rw [List.getElem?_map, List.getElem?_eq_getElem hi]
    rfl

/-- Concrete run of the C1 theorem: weight 0.1234 nA on a two-cell
state is stored as 123.4 pA. -/
theorem weight_unit_conversion_witness :
    PyNNNest.getWeight 1
        ((List.filter (fun c => c.src == 1)
          (PyNNNest.NestState.conns
            { nextGid := 3, timestep := 1/10, min_delay := 1/10,
              max_delay := 10, conns := [] })).length)
        { nextGid := 3, timestep := 1/10, min_delay := 1/10,
          max_delay := 10,
          conns := [] ++
            [{ src := 1, tgt := 2, weight_pA := (1234/10000) * 1000,
               delay := PyNNNest.roundToStep (1/10) (1/10) }] }
      = some ((1234/10000) * 1000) :=
  (weight_unit_conversion
    { nextGid := 3, timestep := 1/10, min_delay := 1/10,
      max_delay := 10, conns := [] } 1 2 (1234/10000)
    (by decide) (by decide) (by decide) (by decide)
    (by norm_num)).2.1

/-- C7: with setup(timestep=0.1, max_delay=5.0) and the cells of the
connection test (3 postsynaptic then 5 presynaptic cells), a connection
requested with delay 4.321 stores and retrieves the delay 4.3: delays
are kept only to the precision of the timestep. -/
theorem delay_timestep_precision :
    ((PyNNNest.create 3 (PyNNNest.setup (1/10) (1/10) 5)).bind fun p1 =>
      (PyNNNest.create 5 p1.snd).bind fun p2 =>
        (PyNNNest.connect 4 1 0 (some (4321/1000)) p2.snd).map fun p3 =>
          PyNNNest.getDelay 4 p3.fst p3.snd)
      = Except.ok (some (43/10)) := by
  have hfloor : (⌊(4321 : ℚ)/1000 / (10 : ℚ)⁻¹ + 1/2⌋ : ℤ) = 43 := by
    have h : ((4321 : ℚ)/1000 / (10 : ℚ)⁻¹ + 1/2) = 4371/100 := by norm_num
    rw [h, Int.floor_eq_iff]
    norm_num
  have hround : PyNNNest.roundToStep (4321/1000) ((10 : ℚ)⁻¹) = 43/10 := by
    unfold PyNNNest.roundToStep
    rw [hfloor]
    norm_num
  have hcond : ¬((4321 : ℚ)/1000 < (10 : ℚ)⁻¹ ∨ (5 : ℚ) < 4321/1000) := by
    push_neg
    constructor <;> norm_num
  have h3 : ¬((3 : Int) ≤ 0) := by norm_num
  have h5 : ¬((5 : Int) ≤ 0) := by norm_num
  simp [PyNNNest.create, PyNNNest.setup, PyNNNest.connect,
    PyNNNest.getDelay, Except.bind, Except.map, hcond, hround, h3, h5]

/-- C2: on the connection-test state (8 cells, min_delay 0.1, max_delay
5) connect raises ConnectionError for a non-existent presynaptic cell,
a non-existent postsynaptic cell, a delay below min_delay and a delay
above max_delay; but hoc_execute on a failing command raises NameError
for the unbound name logging, never reaching its HocError branch, for
every behaviour of the embedded interpreter. -/
theorem backend_error_translation :
    (PyNNNest.connect 12345 1 0 none
        { nextGid := 9, timestep := 1/10, min_delay := 1/10,
          max_delay := 5, conns := [] }
      = Except.error PyErr.connectionError) ∧
    (PyNNNest.connect 4 45678 0 none
        { nextGid := 9, timestep := 1/10, min_delay := 1/10,
          max_delay := 5, conns := [] }
      = Except.error PyErr.connectionError) ∧
    (PyNNNest.connect 4 1 0 (some 0)
        { nextGid := 9, timestep := 1/10, min_delay := 1/10,
          max_delay := 5, conns := [] }
      = Except.error PyErr.connectionError) ∧
    (PyNNNest.connect 4 1 0 (some 1000)
        { nextGid := 9, timestep := 1/10, min_delay := 1/10,
          max_delay := 5, conns := [] }
      = Except.error PyErr.connectionError) ∧
    (∀ interp : String → Bool,
      Neuron.hoc_execute interp ["h29"] none
        = Except.error (PyErr.nameError "logging")) := by
  refine ⟨?_, ?_, ?_, ?_, ?_⟩
  · simp [PyNNNest.connect]
  · simp [PyNNNest.connect]
  · have hlt : (0 : ℚ) < (10 : ℚ)⁻¹ := by norm_num
    simp [PyNNNest.connect, hlt]
  · have hlt : (5 : ℚ) < 1000 := by norm_num
    simp [PyNNNest.connect, hlt]
  · intro interp
    simp [Neuron.hoc_execute, Neuron.strTruthy, Neuron.hocExecLoop,
      logging_debug_fails]

/-- The values rset assigns are exactly the draws of the distribution it
consumes, in cell order. -/
theorem rset_values_eq_next (param : String) :
    ∀ (cells : List Nat) (rd : PyNNNest.RandomDistribution),
      (PyNNNest.rset param cells rd).fst.map (fun t => t.snd.snd)
        = (rd.next cells.length).fst := by
  intro cells
  induction cells with
  | nil => intro rd; rfl
  | cons c rest ih =>
    intro rd
    simp [PyNNNest.rset, PyNNNest.RandomDistribution.next, ih]

/-- Pairs drawn from two equal lists agree to any positive tolerance. -/
theorem zip_self_close (l : List ℚ) :
    (l.zip l).all (fun p => decide (|p.fst - p.snd| < 1/100000))
      = true := by
  induction l with
  | nil => rfl
  | cons x xs ih =>
    simp only [List.zip_cons_cons, List.all_cons, ih, Bool.and_true,
      decide_eq_true_eq]
    rw [sub_self, abs_zero]
    norm_num

/-- C6: rset is deterministic in the RNG seed: the parameter values it
assigns, in cell order, are exactly the draws of a second identically
constructed distribution over the same seed, and in particular agree
with them to 5 decimal places. -/
theorem rset_seed_determinism (param : String) (seed : Nat) (a b : ℚ)
    (cells : List Nat) :
    ((PyNNNest.rset param cells
        { seed := seed, pos := 0, a := a, b := b }).fst.map
          (fun t => t.snd.snd)
      = (PyNNNest.RandomDistribution.next
          { seed := seed, pos := 0, a := a, b := b } cells.length).fst) ∧
    (((PyNNNest.rset param cells
        { seed := seed, pos := 0, a := a, b := b }).fst.map
          (fun t => t.snd.snd)).zip
        ((PyNNNest.RandomDistribution.next
          { seed := seed, pos := 0, a := a, b := b } cells.length).fst)).all
      (fun p => decide (|p.fst - p.snd| < 1/100000)) = true := by
  have h := rset_values_eq_next param cells
    { seed := seed, pos := 0, a := a, b := b }
  exact ⟨h, by rw [h]; exact zip_self_close _⟩
